import Mathlib

/-!
Verification of the migration environment `src/prefect/server/database/_migrations/env.py`.

The file shallowly embeds the module: the pure inclusion filter `include_object`
is translated statement by statement; the stateful pieces
(`disable_sqlite_foreign_keys`, `do_run_migrations`, the module-level
offline/online branch) are modelled by explicit state passing over a record of
the connection state, with Python exception flow made explicit through an
`Outcome` value.
-/

namespace PrefectMigrations

/-- Result of running a Python block: normal completion or an exception
propagating out of it. -/
inductive Outcome
  | ok
  | raised
deriving DecidableEq, Repr

/-- The `dialect` argument of `sqlalchemy.schema.DDLIf`: one dialect name or a
collection of names (the source distinguishes the two with
`isinstance(ddl_if.dialect, str)`). -/
inductive DialectSpec
  | one (s : String)
  | many (ss : List String)
deriving DecidableEq, Repr

/-- The `_ddl_if` attribute attached to an index by `.ddl_if(dialect=...)`;
its `dialect` field may itself be absent. -/
structure DdlIf where
  dialect : Option DialectSpec
deriving DecidableEq, Repr

/-- The fields of a `sqlalchemy.schema.SchemaItem` that `include_object`
reads: `object.name`, `object.type.__visit_name__` and `object._ddl_if`.
For objects that carry no `_ddl_if` attribute the field is `none`. -/
structure SchemaItem where
  name : String
  type_visit_name : String
  ddl_if : Option DdlIf
deriving DecidableEq, Repr

/-- Python `str.endswith`, over the character sequence of the string. -/
def str_endswith (s suffix : String) : Bool :=
  suffix.data.isSuffixOf s.data

/-- Python `str.startswith`, over the character sequence of the string. -/
def str_startswith (s p : String) : Bool :=
  p.data.isPrefixOf s.data

/-- The `desired` set built in `include_object` from a present
`ddl_if.dialect`: `{ddl_if.dialect}` when it is a single string, else
`set(ddl_if.dialect)` (membership in a list is equivalent). -/
def desired_dialects : DialectSpec → List String
  | .one s => [s]
  | .many ss => ss

/-- The tail of `include_object` after the index block: on sqlite, a declared
enum column with a present compare target is included iff the reflected type
visit name is also enum; everything else falls through to `return True`. -/
def sqlite_enum_check (dialect_name : String) (object : SchemaItem)
    (type_ : String) (compare_to : Option SchemaItem) : Bool :=
  match compare_to with
  | some c =>
    if dialect_name == "sqlite" && type_ == "column"
        && object.type_visit_name == "enum" then
      c.type_visit_name == "enum"
    else
      true
  | none => true

/-- Translation of `include_object` from env.py. The ambient module global
`dialect` is passed explicitly as `dialect_name`. Each early `return` of the
Python body is one branch; falling out of the index block continues with
`sqlite_enum_check`. -/
def include_object (dialect_name : String) (object : SchemaItem) (name : String)
    (type_ : String) (reflected : Bool) (compare_to : Option SchemaItem) : Bool :=
  if type_ == "index" then
    if !reflected then
      if str_endswith name "asc" || str_endswith name "desc" then
        match compare_to with
        | none => true
        | some c => object.name != c.name
      else
        match object.ddl_if with
        | some ddlIf =>
          match ddlIf.dialect with
          | some spec => (desired_dialects spec).contains dialect_name
          | none => sqlite_enum_check dialect_name object type_ compare_to
        | none => sqlite_enum_check dialect_name object type_ compare_to
    else
      if str_startswith name "gin" || str_endswith name "case_insensitive" then
        false
      else
        sqlite_enum_check dialect_name object type_ compare_to
  else
    sqlite_enum_check dialect_name object type_ compare_to

/-- Connection state observed by the migration environment: whether sqlite
foreign key enforcement is on, whether a transaction is open and whether it
was acquired with IMMEDIATE locking, plus the log of SQL statements executed
so far on the connection. -/
structure DbState where
  fk_enabled : Bool
  in_transaction : Bool
  txn_immediate : Bool
  log : List String
deriving DecidableEq, Repr

/-- Modelled semantics of `context.execute` for the five statements env.py
issues: COMMIT and END close the open transaction, BEGIN IMMEDIATE opens an
IMMEDIATE one, and the two PRAGMA statements toggle foreign key enforcement.
Every statement is appended to the log. -/
def execute (s : DbState) (sql : String) : DbState :=
  let s1 := { s with log := s.log ++ [sql] }
  if sql == "COMMIT" || sql == "END" then
    { s1 with in_transaction := false, txn_immediate := false }
  else if sql == "BEGIN IMMEDIATE" then
    { s1 with in_transaction := true, txn_immediate := true }
  else if sql == "PRAGMA foreign_keys=OFF" then
    { s1 with fk_enabled := false }
  else if sql == "PRAGMA foreign_keys=ON" then
    { s1 with fk_enabled := true }
  else
    s1

/-- The statements `disable_sqlite_foreign_keys` runs before its `yield`:
on sqlite, COMMIT, PRAGMA foreign_keys=OFF, BEGIN IMMEDIATE; on any other
dialect, nothing. -/
def disable_sqlite_foreign_keys_enter (dialect_name : String) (s : DbState) : DbState :=
  if dialect_name == "sqlite" then
    execute (execute (execute s "COMMIT") "PRAGMA foreign_keys=OFF") "BEGIN IMMEDIATE"
  else
    s

/-- The statements `disable_sqlite_foreign_keys` runs after its `yield`:
on sqlite, END, PRAGMA foreign_keys=ON, BEGIN IMMEDIATE; on any other
dialect, nothing. -/
def disable_sqlite_foreign_keys_exit (dialect_name : String) (s : DbState) : DbState :=
  if dialect_name == "sqlite" then
    execute (execute (execute s "END") "PRAGMA foreign_keys=ON") "BEGIN IMMEDIATE"
  else
    s

/-- Semantics of a `with` statement over a `@contextlib.contextmanager`
generator whose body is a bare `yield` with no try/finally: the pre-yield
code runs, then the body; if the body completes normally the post-yield code
runs, but if the body raises, the exception is thrown into the generator at
the yield point and the post-yield code is skipped. -/
def run_contextmanager {σ : Type} (pre post : σ → σ) (s : σ)
    (body : σ → σ × Outcome) : σ × Outcome :=
  let r := body (pre s)
  match r.2 with
  | .ok => (post r.1, .ok)
  | .raised => r

/-- `with disable_sqlite_foreign_keys(context): body`, as env.py uses it. -/
def disable_sqlite_foreign_keys (dialect_name : String) (s : DbState)
    (body : DbState → DbState × Outcome) : DbState × Outcome :=
  run_contextmanager (disable_sqlite_foreign_keys_enter dialect_name)
    (disable_sqlite_foreign_keys_exit dialect_name) s body

/-- Process state seen by `do_run_migrations`: the connection state plus the
`SQLITE_BEGIN_MODE` context variable (a `ContextVar`, `none` when unset). -/
structure EnvState where
  db : DbState
  sqlite_begin_mode : Option String
deriving DecidableEq, Repr

/-- Translation of `do_run_migrations` from env.py. `context.configure` has
no connection-state effect (its argument list is transcribed separately as
`do_run_migrations_config`); the `with context.begin_transaction():
context.run_migrations()` block is the opaque `migrations` body. The
try/finally around `SQLITE_BEGIN_MODE.set("IMMEDIATE")` and
`SQLITE_BEGIN_MODE.reset(token)` restores the saved token on every path, so
the final state rewrites `sqlite_begin_mode` back to the token
unconditionally. -/
def do_run_migrations (dialect_name : String) (s : EnvState)
    (migrations : EnvState → EnvState × Outcome) : EnvState × Outcome :=
  let token := s.sqlite_begin_mode
  let r :=
    run_contextmanager
      (fun st => { st with db := disable_sqlite_foreign_keys_enter dialect_name st.db })
      (fun st => { st with db := disable_sqlite_foreign_keys_exit dialect_name st.db })
      { s with sqlite_begin_mode := some "IMMEDIATE" }
      migrations
  ({ r.1 with sqlite_begin_mode := token }, r.2)

/-- A call of the filter seen from the process: it returns its boolean and
leaves the process state untouched, because the Python body of
`include_object` contains only reads, comparisons and returns — no
assignment to any nonlocal name, no mutating method call on an argument. -/
def include_object_call (dialect_name : String) (s : EnvState) (object : SchemaItem)
    (name : String) (type_ : String) (reflected : Bool)
    (compare_to : Option SchemaItem) : EnvState × Bool :=
  (s, include_object dialect_name object name type_ reflected compare_to)

/-- The keyword arguments passed to `context.configure`, for comparing the
dry-run and live configurations. The `include_object_filter` field holds the
actual filter function; `target_metadata` and `template_args_dialect` hold
the module globals passed through; fields a call does not pass keep the
alembic defaults (`url`/`paramstyle` absent, `literal_binds` false,
`has_connection` false). -/
structure AlembicConfig where
  url : Option String
  has_connection : Bool
  target_metadata : String
  literal_binds : Bool
  include_schemas : Bool
  include_object_filter :
    SchemaItem → String → String → Bool → Option SchemaItem → Bool
  paramstyle : Option String
  render_as_batch : Bool
  transaction_per_migration : Bool
  template_args_dialect : String

/-- The `context.configure(...)` argument list of `dry_run_migrations`:
`url=url`, `target_metadata=target_metadata`, `literal_binds=True`,
`include_schemas=True`, `include_object=include_object`,
`dialect_opts={"paramstyle": "named"}`, `render_as_batch=dialect.name ==
"sqlite"`, `transaction_per_migration=True`,
`template_args={"dialect": dialect.name}`. -/
def dry_run_migrations_config (dialect_name url metadata : String) : AlembicConfig where
  url := some url
  has_connection := false
  target_metadata := metadata
  literal_binds := true
  include_schemas := true
  include_object_filter := include_object dialect_name
  paramstyle := some "named"
  render_as_batch := dialect_name == "sqlite"
  transaction_per_migration := true
  template_args_dialect := dialect_name

/-- The `context.configure(...)` argument list of `do_run_migrations`:
`connection=connection`, `target_metadata=target_metadata`,
`include_schemas=True`, `include_object=include_object`,
`render_as_batch=dialect.name == "sqlite"`,
`transaction_per_migration=True`, `template_args={"dialect": dialect.name}`;
no `url`, no `literal_binds`, no `dialect_opts`. -/
def do_run_migrations_config (dialect_name metadata : String) : AlembicConfig where
  url := none
  has_connection := true
  target_metadata := metadata
  literal_binds := false
  include_schemas := true
  include_object_filter := include_object dialect_name
  paramstyle := none
  render_as_batch := dialect_name == "sqlite"
  transaction_per_migration := true
  template_args_dialect := dialect_name

/-- What the module-level entry code can do: render SQL offline
(`dry_run_migrations`) or apply migrations against an acquired connection
(`apply_migrations`, run through `run_async_from_worker_thread`). -/
inductive MainAction
  | dry_run
  | apply_live
deriving DecidableEq, Repr

/-- The module-level branch of env.py: `if context.is_offline_mode():
dry_run_migrations() else:
run_async_from_worker_thread(apply_migrations)` — the list of actions the
module body invokes. -/
def env_main (offline_mode : Bool) : List MainAction :=
  if offline_mode then [.dry_run] else [.apply_live]

/-- C3: for an unreflected index object whose name ends with "asc" or
"desc", include_object returns false when a compare-to object with the same
name is present, and true when the compare-to object is absent or carries a
different name. -/
theorem c3_functional_index_suppression (d : String) (o : SchemaItem) (n : String)
    (c : Option SchemaItem) (_hn : n = o.name)
    (h : str_endswith n "asc" = true ∨ str_endswith n "desc" = true) :
    include_object d o n "index" false c
      = match c with
        | none => true
        | some x => o.name != x.name := by
  rcases h with h | h <;>
    cases c <;>
      simp [include_object, h]

/-- Witness for C3 at concrete inputs: an identically named reflected
counterpart suppresses the index, its absence keeps it. -/
theorem c3_functional_index_suppression_witness :
    include_object "postgresql" ⟨"ix_a_asc", "varchar", none⟩ "ix_a_asc" "index"
        false (some ⟨"ix_a_asc", "varchar", none⟩) = false
    ∧ include_object "postgresql" ⟨"ix_a_asc", "varchar", none⟩ "ix_a_asc" "index"
        false none = true := by
  constructor
  · have h := c3_functional_index_suppression "postgresql" ⟨"ix_a_asc", "varchar", none⟩
      "ix_a_asc" (some ⟨"ix_a_asc", "varchar", none⟩) rfl (Or.inl (by decide))
    simpa using h
  · have h := c3_functional_index_suppression "postgresql" ⟨"ix_a_asc", "varchar", none⟩
      "ix_a_asc" none rfl (Or.inl (by decide))
    simpa using h

/-- C4 counterexample: an unreflected index named "ix_foo_asc" carrying the
dialect constraint postgresql is nevertheless included under dialect sqlite
(the asc/desc rule fires first and returns before the constraint is
consulted), although sqlite is not in the constraint set — so the dialect
constraint does not govern names ending in asc or desc. -/
theorem c4_dialect_constraint_counterexample :
    include_object "sqlite"
        ⟨"ix_foo_asc", "varchar", some ⟨some (DialectSpec.one "postgresql")⟩⟩
        "ix_foo_asc" "index" false none = true
    ∧ (desired_dialects (DialectSpec.one "postgresql")).contains "sqlite" = false := by
  exact ⟨by decide, by decide⟩

/-- C4 amended: for an unreflected index whose name does not end in "asc" or
"desc" and whose ddl_if carries a dialect constraint, include_object returns
true exactly when the current dialect is in the constraint set. -/
theorem c4_dialect_constraint (d : String) (o : SchemaItem) (n : String)
    (c : Option SchemaItem) (spec : DialectSpec)
    (hasc : str_endswith n "asc" = false) (hdesc : str_endswith n "desc" = false)
    (hddl : o.ddl_if = some ⟨some spec⟩) :
    include_object d o n "index" false c = (desired_dialects spec).contains d := by
  simp [include_object, hasc, hdesc, hddl]

/-- Witness for C4 at concrete inputs: a postgresql-only index is included
under postgresql and excluded under mysql. -/
theorem c4_dialect_constraint_witness :
    include_object "postgresql"
        ⟨"ix_foo", "varchar", some ⟨some (DialectSpec.one "postgresql")⟩⟩
        "ix_foo" "index" false none = true
    ∧ include_object "mysql"
        ⟨"ix_foo", "varchar", some ⟨some (DialectSpec.one "postgresql")⟩⟩
        "ix_foo" "index" false none = false := by
  constructor
  · have h := c4_dialect_constraint "postgresql"
      ⟨"ix_foo", "varchar", some ⟨some (DialectSpec.one "postgresql")⟩⟩
      "ix_foo" none (DialectSpec.one "postgresql") (by decide) (by decide) rfl
    simpa using h
  · have h := c4_dialect_constraint "mysql"
      ⟨"ix_foo", "varchar", some ⟨some (DialectSpec.one "postgresql")⟩⟩
      "ix_foo" none (DialectSpec.one "postgresql") (by decide) (by decide) rfl
    simpa using h

/-- C5: under dialect sqlite, a declared column whose type visit name is
enum and whose compare-to object is present is included exactly when the
reflected columns type visit name is also enum. -/
theorem c5_sqlite_enum_column (o : SchemaItem) (n : String) (x : SchemaItem)
    (henum : o.type_visit_name = "enum") :
    include_object "sqlite" o n "column" false (some x)
      = (x.type_visit_name == "enum") := by
  simp [include_object, sqlite_enum_check, henum]

/-- Witness for C5 at concrete inputs: a reflected enum column is kept, a
reflected varchar column is dropped. -/
theorem c5_sqlite_enum_column_witness :
    include_object "sqlite" ⟨"status", "enum", none⟩ "status" "column" false
        (some ⟨"status", "enum", none⟩) = true
    ∧ include_object "sqlite" ⟨"status", "enum", none⟩ "status" "column" false
        (some ⟨"status", "varchar", none⟩) = false := by
  constructor
  · have h := c5_sqlite_enum_column ⟨"status", "enum", none⟩ "status"
      ⟨"status", "enum", none⟩ rfl
    simpa using h
  · have h := c5_sqlite_enum_column ⟨"status", "enum", none⟩ "status"
      ⟨"status", "varchar", none⟩ rfl
    simpa using h

/-- C6: a reflected index whose name starts with "gin" or ends with
"case_insensitive" is always excluded, for every dialect and whether or not
a compare-to object is present. -/
theorem c6_reflected_gin_case_insensitive (d : String) (o : SchemaItem) (n : String)
    (c : Option SchemaItem)
    (h : str_startswith n "gin" = true ∨ str_endswith n "case_insensitive" = true) :
    include_object d o n "index" true c = false := by
  rcases h with h | h <;> simp [include_object, h]

/-- Witness for C6 at concrete inputs: gin_foo and idx_case_insensitive are
excluded. -/
theorem c6_reflected_gin_case_insensitive_witness :
    include_object "postgresql" ⟨"gin_foo", "varchar", none⟩ "gin_foo" "index"
        true none = false
    ∧ include_object "sqlite" ⟨"idx_case_insensitive", "varchar", none⟩
        "idx_case_insensitive" "index" true
        (some ⟨"idx_case_insensitive", "varchar", none⟩) = false := by
  constructor
  · exact c6_reflected_gin_case_insensitive "postgresql" ⟨"gin_foo", "varchar", none⟩
      "gin_foo" none (Or.inl (by decide))
  · exact c6_reflected_gin_case_insensitive "sqlite"
      ⟨"idx_case_insensitive", "varchar", none⟩ "idx_case_insensitive"
      (some ⟨"idx_case_insensitive", "varchar", none⟩) (Or.inr (by decide))

/-- C7: an invocation of the filter leaves the process state exactly as it
was, and two invocations with equal arguments under the same ambient dialect
return the same boolean. -/
theorem c7_filter_deterministic_pure (d d2 : String) (s s2 : EnvState)
    (o o2 : SchemaItem) (n n2 t t2 : String) (r r2 : Bool)
    (c c2 : Option SchemaItem) (hd : d = d2) (ho : o = o2) (hn : n = n2)
    (ht : t = t2) (hr : r = r2) (hc : c = c2) :
    (include_object_call d s o n t r c).1 = s
    ∧ (include_object_call d s o n t r c).2 = (include_object_call d2 s2 o2 n2 t2 r2 c2).2 := by
  subst hd; subst ho; subst hn; subst ht; subst hr; subst hc
  exact ⟨rfl, rfl⟩

/-- Witness for C7 at concrete inputs: same arguments under two different
process states give the same boolean and an unchanged state. -/
theorem c7_filter_deterministic_pure_witness :
    (include_object_call "sqlite" ⟨⟨true, false, false, []⟩, none⟩
        ⟨"status", "enum", none⟩ "status" "column" false none).1
      = ⟨⟨true, false, false, []⟩, none⟩
    ∧ (include_object_call "sqlite" ⟨⟨true, false, false, []⟩, none⟩
        ⟨"status", "enum", none⟩ "status" "column" false none).2
      = (include_object_call "sqlite" ⟨⟨false, true, true, ["COMMIT"]⟩, some "IMMEDIATE"⟩
        ⟨"status", "enum", none⟩ "status" "column" false none).2 :=
  c7_filter_deterministic_pure "sqlite" "sqlite" ⟨⟨true, false, false, []⟩, none⟩
    ⟨⟨false, true, true, ["COMMIT"]⟩, some "IMMEDIATE"⟩ ⟨"status", "enum", none⟩
    ⟨"status", "enum", none⟩ "status" "status" "column" "column" false false
    none none rfl rfl rfl rfl rfl rfl

/-- C1 counterexample: on sqlite, when the body of the scope raises, the
scope exits without re-enabling foreign-key enforcement — starting from a
connection with enforcement on and no open transaction, after an exceptional
exit enforcement is off, refuting re-enabling on every exit. -/
theorem c1_fk_scope_counterexample :
    (disable_sqlite_foreign_keys "sqlite" ⟨true, false, false, []⟩
        (fun st => (st, Outcome.raised))).2 = Outcome.raised
    ∧ (disable_sqlite_foreign_keys "sqlite" ⟨true, false, false, []⟩
        (fun st => (st, Outcome.raised))).1.fk_enabled = false := by
  exact ⟨by decide, by decide⟩

/-- C1 amended: on sqlite the scope on entry commits any open transaction,
disables foreign-key enforcement and begins an IMMEDIATE transaction, and on
a normal (non-raising) exit of the body re-enables foreign-key enforcement
and begins a fresh IMMEDIATE transaction; when the body raises, the exit
statements are skipped. -/
theorem c1_fk_scope (s : DbState) (body : DbState → DbState × Outcome)
    (hok : (body (disable_sqlite_foreign_keys_enter "sqlite" s)).2 = Outcome.ok) :
    (disable_sqlite_foreign_keys_enter "sqlite" s).fk_enabled = false
    ∧ (disable_sqlite_foreign_keys_enter "sqlite" s).in_transaction = true
    ∧ (disable_sqlite_foreign_keys_enter "sqlite" s).txn_immediate = true
    ∧ (disable_sqlite_foreign_keys_enter "sqlite" s).log
        = s.log ++ ["COMMIT", "PRAGMA foreign_keys=OFF", "BEGIN IMMEDIATE"]
    ∧ (disable_sqlite_foreign_keys "sqlite" s body).1.fk_enabled = true
    ∧ (disable_sqlite_foreign_keys "sqlite" s body).1.in_transaction = true
    ∧ (disable_sqlite_foreign_keys "sqlite" s body).1.txn_immediate = true
    ∧ (disable_sqlite_foreign_keys "sqlite" s body).1.log
        = (body (disable_sqlite_foreign_keys_enter "sqlite" s)).1.log
            ++ ["END", "PRAGMA foreign_keys=ON", "BEGIN IMMEDIATE"] := by
  have hok2 := hok
  simp [disable_sqlite_foreign_keys_enter, execute] at hok2
  refine ⟨?_, ?_, ?_, ?_, ?_, ?_, ?_, ?_⟩ <;>
    simp [disable_sqlite_foreign_keys, disable_sqlite_foreign_keys_enter,
      disable_sqlite_foreign_keys_exit, run_contextmanager, execute, hok2]

/-- Witness for C1 amended at a concrete input: a body that completes
normally leaves enforcement re-enabled inside a fresh IMMEDIATE transaction,
with the full statement log as expected. -/
theorem c1_fk_scope_witness :
    (disable_sqlite_foreign_keys_enter "sqlite" ⟨true, true, false, []⟩).fk_enabled = false
    ∧ (disable_sqlite_foreign_keys_enter "sqlite" ⟨true, true, false, []⟩).in_transaction = true
    ∧ (disable_sqlite_foreign_keys_enter "sqlite" ⟨true, true, false, []⟩).txn_immediate = true
    ∧ (disable_sqlite_foreign_keys_enter "sqlite" ⟨true, true, false, []⟩).log
        = [] ++ ["COMMIT", "PRAGMA foreign_keys=OFF", "BEGIN IMMEDIATE"]
    ∧ (disable_sqlite_foreign_keys "sqlite" ⟨true, true, false, []⟩
        (fun st => (st, Outcome.ok))).1.fk_enabled = true
    ∧ (disable_sqlite_foreign_keys "sqlite" ⟨true, true, false, []⟩
        (fun st => (st, Outcome.ok))).1.in_transaction = true
    ∧ (disable_sqlite_foreign_keys "sqlite" ⟨true, true, false, []⟩
        (fun st => (st, Outcome.ok))).1.txn_immediate = true
    ∧ (disable_sqlite_foreign_keys "sqlite" ⟨true, true, false, []⟩
        (fun st => (st, Outcome.ok))).1.log
        = ((fun st => (st, Outcome.ok))
            (disable_sqlite_foreign_keys_enter "sqlite" ⟨true, true, false, []⟩)).1.log
            ++ ["END", "PRAGMA foreign_keys=ON", "BEGIN IMMEDIATE"] :=
  c1_fk_scope ⟨true, true, false, []⟩ (fun st => (st, Outcome.ok)) rfl

/-- C2: do_run_migrations restores the prior SQLITE_BEGIN_MODE value on
every exit path — the value after the call equals the value before — and the
migrations body always runs with the override set to IMMEDIATE, so forcing
the override inside the body changes nothing. -/
theorem c2_begin_mode_scoped (d : String) (s : EnvState)
    (migrations : EnvState → EnvState × Outcome) :
    (do_run_migrations d s migrations).1.sqlite_begin_mode = s.sqlite_begin_mode
    ∧ do_run_migrations d s migrations
        = do_run_migrations d s
            (fun st => migrations { st with sqlite_begin_mode := some "IMMEDIATE" }) :=
  ⟨rfl, rfl⟩

/-- C8: the dry-run and live context.configure calls agree on the inclusion
filter, the target metadata, batch planning exactly on sqlite, and one
transaction per migration; the dry run additionally binds literals and is
configured against a URL with no live connection, while the live runner has
a connection and no URL. -/
theorem c8_dry_run_live_config_agree (d url metadata : String) :
    (dry_run_migrations_config d url metadata).include_object_filter
        = (do_run_migrations_config d metadata).include_object_filter
    ∧ (dry_run_migrations_config d url metadata).target_metadata
        = (do_run_migrations_config d metadata).target_metadata
    ∧ (dry_run_migrations_config d url metadata).render_as_batch = (d == "sqlite")
    ∧ (do_run_migrations_config d metadata).render_as_batch = (d == "sqlite")
    ∧ (dry_run_migrations_config d url metadata).transaction_per_migration = true
    ∧ (do_run_migrations_config d metadata).transaction_per_migration = true
    ∧ (dry_run_migrations_config d url metadata).literal_binds = true
    ∧ (do_run_migrations_config d metadata).literal_binds = false
    ∧ (dry_run_migrations_config d url metadata).url = some url
    ∧ (dry_run_migrations_config d url metadata).has_connection = false
    ∧ (do_run_migrations_config d metadata).url = none
    ∧ (do_run_migrations_config d metadata).has_connection = true :=
  ⟨rfl, rfl, rfl, rfl, rfl, rfl, rfl, rfl, rfl, rfl, rfl, rfl⟩

/-- C9: the module entry point invokes exactly the dry-run renderer when
offline mode is configured and exactly the live application otherwise. -/
theorem c9_entry_mode_branch (offline_mode : Bool) :
    (env_main offline_mode = [MainAction.dry_run] ↔ offline_mode = true)
    ∧ (env_main offline_mode = [MainAction.apply_live] ↔ offline_mode = false) := by
  cases offline_mode <;> simp [env_main]

/-- C10: on any dialect other than sqlite the foreign-key scope executes no
SQL at all: its entry and exit leave the connection state (transaction
state, enforcement flag and statement log) unchanged, and running the scope
around a body is the same as running the body alone. -/
theorem c10_non_sqlite_frame (d : String) (hd : d ≠ "sqlite") (s : DbState)
    (body : DbState → DbState × Outcome) :
    disable_sqlite_foreign_keys_enter d s = s
    ∧ disable_sqlite_foreign_keys_exit d s = s
    ∧ disable_sqlite_foreign_keys d s body = body s := by
  have henter : disable_sqlite_foreign_keys_enter d s = s := by
    simp [disable_sqlite_foreign_keys_enter, hd]
  have hexit : ∀ t : DbState, disable_sqlite_foreign_keys_exit d t = t := by
    intro t
    simp [disable_sqlite_foreign_keys_exit, hd]
  refine ⟨henter, hexit s, ?_⟩
  unfold disable_sqlite_foreign_keys run_contextmanager
  rw [henter]
  rcases hbody : body s with ⟨t, out⟩
  cases out <;> simp [hexit]

/-- Witness for C10 at a concrete input: under postgresql the scope is a
no-op around a body that opens a transaction. -/
theorem c10_non_sqlite_frame_witness :
    disable_sqlite_foreign_keys_enter "postgresql" ⟨true, false, false, []⟩
        = ⟨true, false, false, []⟩
    ∧ disable_sqlite_foreign_keys_exit "postgresql" ⟨true, false, false, []⟩
        = ⟨true, false, false, []⟩
    ∧ disable_sqlite_foreign_keys "postgresql" ⟨true, false, false, []⟩
        (fun st => (execute st "BEGIN IMMEDIATE", Outcome.ok))
        = (execute ⟨true, false, false, []⟩ "BEGIN IMMEDIATE", Outcome.ok) :=
  c10_non_sqlite_frame "postgresql" (by decide) ⟨true, false, false, []⟩
    (fun st => (execute st "BEGIN IMMEDIATE", Outcome.ok))

end PrefectMigrations
